import Mathlib

/-!
# Verification of `include-zstd`

A shallow embedding of the `include-zstd` Rust crate (runtime crate
`src/lib.rs` and proc-macro crate `macro/src/lib.rs`), with theorems
settling the specification claims.

Bytes are modelled as natural numbers; byte sequences as `List Nat`.
The external zstd codec (the `zstd` encoder used at build time and the
`ruzstd` streaming decoder used at run time) is not part of this
repository; it is modelled abstractly as a `Codec` structure, and a
concrete model codec following the specification's collaborator
contract is provided for concrete evaluations.
-/

namespace IncludeZstd

/-- The decode-error domain the specification names for runtime
decompression failures: at least truncated input, malformed frame,
unsupported frame feature. -/
inductive DecodeError where
  | truncated
  | malformedFrame
  | unsupportedFeature
  deriving DecidableEq, Repr

/-- Modelled from the spec: the external codec collaborator (§4.3).
`compress level input` is the build-time encoder
(`zstd::Encoder::new` at `level`, `write_all`, `finish`); it returns
`none` when the level is rejected or the codec fails, otherwise the
complete compressed stream.  `decompress stream` is the runtime
decoder (`ruzstd::StreamingDecoder` + `read_to_end`); it returns the
original bytes, or an explicit `DecodeError` on malformed input. -/
structure Codec where
  compress : Int → List Nat → Option (List Nat)
  decompress : List Nat → Except DecodeError (List Nat)

/-- The codec contract consumed by the core (spec §4.3 (b)):
deterministic, complete decoding of well-formed input — decompression
inverts any successful compression. -/
def Codec.RoundTrip (c : Codec) : Prop :=
  ∀ (level : Int) (input out : List Nat),
    c.compress level input = some out → c.decompress out = Except.ok input

/-- The four magic-number bytes that begin every zstd frame
(0xFD2FB528, little-endian). -/
def zstdMagic : List Nat := [40, 181, 47, 253]

/-- Modelled from the spec: a concrete codec satisfying the external
collaborator contract, used to evaluate claims on concrete inputs.  A
compressed stream is the frame magic, one level-dependent byte, then
the payload; decompression demands the magic and at least five bytes,
so an empty or all-zero sequence is rejected with an explicit error,
as the specification's failure scenario requires.  Levels outside the
codec's accepted range 0..=22 are rejected at compression time. -/
def specCompress (level : Int) (input : List Nat) : Option (List Nat) :=
  if 0 ≤ level ∧ level ≤ 22 then
    some (zstdMagic ++ [level.toNat % 256] ++ input)
  else
    none

/-- Modelled from the spec: the decoding half of the concrete model
codec (see `specCompress`). -/
def specDecompress (stream : List Nat) : Except DecodeError (List Nat) :=
  if stream.length < 5 then Except.error DecodeError.truncated
  else if stream.take 4 = zstdMagic then Except.ok (stream.drop 5)
  else Except.error DecodeError.malformedFrame

/-- The concrete model codec. -/
def specCodec : Codec where
  compress := specCompress
  decompress := specDecompress

/-- `EmbeddedZstd<SIZE>`: the runtime container, a `[u8; SIZE]` of
compressed bytes (`src/lib.rs`).  Invariant A (stored length equals
`SIZE`) is carried by the representation. -/
structure EmbeddedZstd (SIZE : Nat) where
  data : List Nat
  size_eq : data.length = SIZE

/-- The derived `PartialEq` of `EmbeddedZstd<SIZE>`: structural
comparison of the raw compressed byte arrays. -/
def EmbeddedZstd.beq {SIZE : Nat} (a b : EmbeddedZstd SIZE) : Bool :=
  a.data == b.data

/-- `EmbeddedZstd::new_unchecked`: the privileged constructor; wraps
the given `SIZE` bytes with no validation. -/
def EmbeddedZstd.new_unchecked {SIZE : Nat} (data : List Nat)
    (h : data.length = SIZE) : EmbeddedZstd SIZE :=
  ⟨data, h⟩

/-- `EmbeddedZstd::size`: returns the const generic `SIZE`. -/
def EmbeddedZstd.size {SIZE : Nat} (_ : EmbeddedZstd SIZE) : Nat := SIZE

/-- Observable outcome of a runtime conversion.  The Rust conversions
return a plain buffer; a codec failure hits `.unwrap()`, which
terminates the process (`panicked`).  The `decodeError` constructor
represents the alternative of returning an explicit failure value,
which the specification discusses; the embedded code never produces
it. -/
inductive RtOutcome (α : Type) where
  | ok : α → RtOutcome α
  | decodeError : DecodeError → RtOutcome α
  | panicked : RtOutcome α
  deriving DecidableEq, Repr

/-- Whether an outcome is an explicit decode-error result. -/
def RtOutcome.isDecodeError {α : Type} : RtOutcome α → Bool
  | RtOutcome.decodeError _ => true
  | _ => false

/-- `impl From<EmbeddedZstd<SIZE>> for Vec<u8>`: feed the stored bytes
to the streaming decoder and read to end; both fallible steps are
`.unwrap()`ed, so any decode failure panics. -/
def vecFrom {SIZE : Nat} (c : Codec) (v : EmbeddedZstd SIZE) :
    RtOutcome (List Nat) :=
  match c.decompress v.data with
  | Except.ok buf => RtOutcome.ok buf
  | Except.error _ => RtOutcome.panicked

/-- A `Box<[u8]>`: an immutable, non-resizable view of bytes. -/
structure BoxedSlice where
  contents : List Nat
  deriving DecidableEq, Repr

/-- `impl From<EmbeddedZstd<SIZE>> for Box<[u8]>`:
`Vec::from(value).into_boxed_slice()` — decompress via the `Vec`
conversion, then freeze the buffer. -/
def boxFrom {SIZE : Nat} (c : Codec) (v : EmbeddedZstd SIZE) :
    RtOutcome BoxedSlice :=
  match vecFrom c v with
  | RtOutcome.ok buf => RtOutcome.ok ⟨buf⟩
  | RtOutcome.decodeError e => RtOutcome.decodeError e
  | RtOutcome.panicked => RtOutcome.panicked

/-- A file-system path as the macro sees it: absolute or relative,
with a component list (`std::path::PathBuf`). -/
structure RPath where
  absolute : Bool
  components : List String
  deriving DecidableEq

/-- `PathBuf::join`: an absolute argument replaces the base, a
relative one is appended to it. -/
def RPath.join (base p : RPath) : RPath :=
  if p.absolute then p else ⟨base.absolute, base.components ++ p.components⟩

/-- The path resolution step of `include_zstd_inner`
(`macro/src/lib.rs`): a relative path is joined onto
`CARGO_MANIFEST_DIR`, an absolute path is used as-is. -/
def resolvePath (manifestDir : RPath) (p : RPath) : RPath :=
  if p.absolute = false then manifestDir.join p else p

/-- `proc_macro_crate::FoundCrate`: how the runtime crate is reachable
from the calling crate's dependency graph. -/
inductive FoundCrate where
  | itself
  | name : String → FoundCrate
  deriving DecidableEq

/-- The identifier the macro substitutes for the runtime crate. -/
def crateIdent : FoundCrate → String
  | FoundCrate.itself => "include_zstd"
  | FoundCrate.name s => s

/-- The build environment the proc macro reads: the calling crate's
manifest directory, the file system (`fs::read`, `none` = missing or
unreadable), and the resolved runtime-crate name
(`proc_macro_crate::crate_name`, `none` = not in the dependency
graph). -/
structure BuildEnv where
  manifestDir : RPath
  files : RPath → Option (List Nat)
  crateName : Option FoundCrate

/-- Build-time failure domain: each `.unwrap()` in the proc macro
aborts the build. -/
inductive BuildError where
  | fileUnreadable
  | codecRejected
  | crateUnresolved
  deriving DecidableEq, Repr

/-- What a successful macro expansion emits: the construction
expression `{crate}::EmbeddedZstd::<{len}>::new_unchecked([...])`,
i.e. the crate identifier, the compressed length, and the constructed
container. -/
structure Emitted where
  crate : String
  len : Nat
  asset : EmbeddedZstd len

/-- `include_zstd_inner` (`macro/src/lib.rs`): resolve the path, read
the file, compress at the given level, resolve the runtime crate name,
and emit the unchecked construction of the compressed bytes.  Every
failure is a build error; nothing else reaches the program. -/
def include_zstd_inner (env : BuildEnv) (c : Codec) (path : RPath)
    (level : Int) : Except BuildError Emitted :=
  match env.files (resolvePath env.manifestDir path) with
  | none => Except.error BuildError.fileUnreadable
  | some bytes =>
    match c.compress level bytes with
    | none => Except.error BuildError.codecRejected
    | some compressed =>
      match env.crateName with
      | none => Except.error BuildError.crateUnresolved
      | some fc =>
        Except.ok ⟨crateIdent fc, compressed.length,
          EmbeddedZstd.new_unchecked compressed rfl⟩

/-- The compressed bytes of a build result (`[]` on build failure);
used to compare independent build runs. -/
def builtData : Except BuildError Emitted → List Nat
  | Except.ok em => em.asset.data
  | Except.error _ => []

/-- A concrete build environment for evaluating the pipeline: files
are readable everywhere with content `[1, 2, 3]`, and the runtime
crate resolves to itself. -/
def demoEnv : BuildEnv where
  manifestDir := ⟨true, []⟩
  files := fun _ => some [1, 2, 3]
  crateName := some FoundCrate.itself

/-- A concrete relative path for evaluating the pipeline. -/
def demoPath : RPath := ⟨false, ["data"]⟩

/-- An `EmbeddedZstd<8>` built, through the privileged path, from an
all-zero byte sequence of plausible length: the specification's
failure scenario. -/
def zeroAsset8 : EmbeddedZstd 8 :=
  EmbeddedZstd.new_unchecked [0, 0, 0, 0, 0, 0, 0, 0] rfl

end IncludeZstd

namespace IncludeZstd

/-- A successful expansion result of the demo build at level 19:
crate ident, compressed length 8, and the container holding the model
codec's stream for content `[1, 2, 3]`. -/
def demoEmitted : Emitted :=
  ⟨"include_zstd", 8,
    EmbeddedZstd.new_unchecked [40, 181, 47, 253, 19, 1, 2, 3] rfl⟩

theorem eq_iff_data {n : Nat} (a b : EmbeddedZstd n) :
    a = b ↔ a.data = b.data := by
  constructor
  · intro h
    rw [h]
  · intro h
    cases a
    cases b
    simp only at h
    subst h
    rfl

theorem specCodec_roundTrip : specCodec.RoundTrip := by
  intro L B out h
  have hc : specCompress L B = some out := h
  unfold specCompress at hc
  split at hc
  · injection hc with hc
    subst hc
    show specDecompress (zstdMagic ++ [L.toNat % 256] ++ B) = Except.ok B
    unfold specDecompress zstdMagic
    simp [List.take, List.drop]
  · cases hc

end IncludeZstd

open IncludeZstd

/-- Claim C1 (counterexample): decompressing an `EmbeddedZstd<8>` built
through the privileged path from an all-zero byte sequence does not
return an explicit `DecodeError` failure result — the conversion hits
`.unwrap()` and terminates the process. -/
theorem claim_C1_counterexample :
    vecFrom specCodec zeroAsset8 = RtOutcome.panicked
      ∧ (vecFrom specCodec zeroAsset8).isDecodeError = false := by
  exact ⟨rfl, rfl⟩

/-- Claim C1 (amended): for every `EmbeddedZstd` whose stored bytes the
codec rejects, the `Vec<u8>` conversion fails abnormally — it panics
(terminating the process) rather than silently returning data, and it
never returns an explicit `DecodeError` failure value. -/
theorem claim_C1_amended (n : Nat) (e : EmbeddedZstd n) (c : Codec)
    (err : DecodeError) (h : c.decompress e.data = Except.error err) :
    vecFrom c e = RtOutcome.panicked
      ∧ (vecFrom c e).isDecodeError = false := by
  unfold vecFrom
  rw [h]
  exact ⟨rfl, rfl⟩

/-- Claim C1 (witness): the amended claim evaluated on a twelve-byte
all-zero sequence under the model codec. -/
theorem claim_C1_witness :
    vecFrom specCodec
        (@EmbeddedZstd.new_unchecked 12
          [0, 0, 0, 0, 0, 0, 0, 0, 0, 0, 0, 0] rfl) = RtOutcome.panicked
      ∧ (vecFrom specCodec
          (@EmbeddedZstd.new_unchecked 12
            [0, 0, 0, 0, 0, 0, 0, 0, 0, 0, 0, 0] rfl)).isDecodeError
        = false :=
  claim_C1_amended 12
    (@EmbeddedZstd.new_unchecked 12 [0, 0, 0, 0, 0, 0, 0, 0, 0, 0, 0, 0] rfl)
    specCodec DecodeError.malformedFrame rfl

/-- Claim C5: `size()` always returns the const generic `SIZE`, which
equals the stored byte sequence's length; the operation is a pure
projection with no failure mode. -/
theorem claim_C5_size (n : Nat) (e : EmbeddedZstd n) :
    e.size = n ∧ e.data.length = n :=
  ⟨rfl, e.size_eq⟩

/-- Claim C7: `new_unchecked`, given exactly `SIZE` bytes, always
succeeds and stores exactly the given bytes, with no validation of
whether they form a well-formed compressed stream. -/
theorem claim_C7_new_unchecked (n : Nat) (d : List Nat)
    (h : d.length = n) :
    (EmbeddedZstd.new_unchecked d h).data = d
      ∧ (EmbeddedZstd.new_unchecked d h).size = n :=
  ⟨rfl, rfl⟩

/-- Claim C7 (witness): the privileged constructor evaluated on three
zero bytes — bytes that are not a valid stream — still succeeds and
stores them unchanged. -/
theorem claim_C7_witness :
    (@EmbeddedZstd.new_unchecked 3 [0, 0, 0] rfl).data = [0, 0, 0]
      ∧ (@EmbeddedZstd.new_unchecked 3 [0, 0, 0] rfl).size = 3 :=
  claim_C7_new_unchecked 3 [0, 0, 0] rfl

/-- Claim C10: for `SIZE = 0`, the empty stored sequence is not a
valid compressed stream under the model codec, so both runtime
conversions of any `EmbeddedZstd<0>` fail (by panic) and never
succeed. -/
theorem claim_C10_empty_never_decodes (e : EmbeddedZstd 0) :
    vecFrom specCodec e = RtOutcome.panicked
      ∧ boxFrom specCodec e = RtOutcome.panicked
      ∧ specCodec.decompress e.data = Except.error DecodeError.truncated := by
  have hd : e.data = [] := List.length_eq_zero.mp e.size_eq
  refine ⟨?_, ?_, ?_⟩ <;>
    simp [vecFrom, boxFrom, hd, specCodec, specDecompress]

/-- Claim C2: for any codec satisfying the round-trip contract, any
build environment, path, level and file content, a successful macro
expansion yields a container whose `Vec<u8>` conversion returns
exactly the original file bytes. -/
theorem claim_C2_roundtrip (c : Codec) (hrt : c.RoundTrip)
    (env : BuildEnv) (p : RPath) (L : Int) (B : List Nat) (em : Emitted)
    (hfile : env.files (resolvePath env.manifestDir p) = some B)
    (hbuild : include_zstd_inner env c p L = Except.ok em) :
    vecFrom c em.asset = RtOutcome.ok B := by
  unfold include_zstd_inner at hbuild
  simp only [hfile] at hbuild
  cases hc : c.compress L B with
  | none =>
    simp only [hc] at hbuild
    exact Except.noConfusion hbuild
  | some compressed =>
    simp only [hc] at hbuild
    cases hcr : env.crateName with
    | none =>
      simp only [hcr] at hbuild
      exact Except.noConfusion hbuild
    | some fc =>
      simp only [hcr] at hbuild
      injection hbuild with hem
      subst hem
      simp [vecFrom, EmbeddedZstd.new_unchecked, hrt L B compressed hc]

/-- Claim C2 (witness): the round trip evaluated under the model
codec: the demo build of content `[1, 2, 3]` at level 19 decompresses
back to `[1, 2, 3]`. -/
theorem claim_C2_witness :
    vecFrom specCodec demoEmitted.asset = RtOutcome.ok [1, 2, 3] :=
  claim_C2_roundtrip specCodec specCodec_roundTrip demoEnv demoPath 19
    [1, 2, 3] demoEmitted rfl rfl

/-- Claim C3: `EmbeddedZstd` equality is structural over the stored
compressed bytes — `beq` holds iff the byte sequences (equivalently,
the instances) are identical; concretely, the demo build at level 19
is byte-identical to a second embedding of the same stream, while the
builds at levels 3 and 19 have different compressed bytes even though
both decompress to the same content `[1, 2, 3]`. -/
theorem claim_C3_equality :
    (∀ (n : Nat) (a b : EmbeddedZstd n), a.beq b = true ↔ a.data = b.data)
    ∧ (∀ (n : Nat) (a b : EmbeddedZstd n), a.beq b = true ↔ a = b)
    ∧ builtData (include_zstd_inner demoEnv specCodec demoPath 19)
        = [40, 181, 47, 253, 19, 1, 2, 3]
    ∧ (@EmbeddedZstd.new_unchecked 8 [40, 181, 47, 253, 19, 1, 2, 3] rfl).beq
        (@EmbeddedZstd.new_unchecked 8 [40, 181, 47, 253, 19, 1, 2, 3] rfl)
        = true
    ∧ builtData (include_zstd_inner demoEnv specCodec demoPath 3)
        ≠ builtData (include_zstd_inner demoEnv specCodec demoPath 19)
    ∧ specCodec.decompress
        (builtData (include_zstd_inner demoEnv specCodec demoPath 3))
        = Except.ok [1, 2, 3]
    ∧ specCodec.decompress
        (builtData (include_zstd_inner demoEnv specCodec demoPath 19))
        = Except.ok [1, 2, 3] := by
  refine ⟨?_, ?_, rfl, rfl, by decide, rfl, rfl⟩
  · intro n a b
    simp [EmbeddedZstd.beq]
  · intro n a b
    simp [EmbeddedZstd.beq, eq_iff_data]

/-- Claim C3 (witness): the structural-equality characterisation
evaluated on the all-zero eight-byte container compared with
itself. -/
theorem claim_C3_witness : zeroAsset8.beq zeroAsset8 = true :=
  (claim_C3_equality.1 8 zeroAsset8 zeroAsset8).mpr rfl

/-- Claim C4: the build pipeline is deterministic — two runs on the
same environment, codec, path and level that both succeed emit the
same compressed length, the same compressed bytes, and the same crate
identifier, so the resulting instances are equal. -/
theorem claim_C4_determinism (env : BuildEnv) (c : Codec) (p : RPath)
    (L : Int) (em₁ em₂ : Emitted)
    (h₁ : include_zstd_inner env c p L = Except.ok em₁)
    (h₂ : include_zstd_inner env c p L = Except.ok em₂) :
    em₁.len = em₂.len ∧ em₁.asset.data = em₂.asset.data
      ∧ em₁.crate = em₂.crate := by
  rw [h₁] at h₂
  injection h₂ with h
  subst h
  exact ⟨rfl, rfl, rfl⟩

/-- Claim C4 (witness): determinism evaluated on the demo build at
level 19, both runs emitting `demoEmitted`. -/
theorem claim_C4_witness :
    demoEmitted.len = demoEmitted.len
      ∧ demoEmitted.asset.data = demoEmitted.asset.data
      ∧ demoEmitted.crate = demoEmitted.crate :=
  claim_C4_determinism demoEnv specCodec demoPath 19 demoEmitted
    demoEmitted rfl rfl

/-- Claim C6: the `Box<[u8]>` conversion has exactly the semantics of
the `Vec<u8>` conversion — it succeeds with the same bytes, frozen
into a non-resizable view, exactly when the latter succeeds, and
mirrors its failure behaviour outcome for outcome. -/
theorem claim_C6_box_refines_vec (c : Codec) (n : Nat)
    (v : EmbeddedZstd n) :
    (∀ b : List Nat,
        boxFrom c v = RtOutcome.ok (BoxedSlice.mk b)
          ↔ vecFrom c v = RtOutcome.ok b)
    ∧ (∀ e : DecodeError,
        boxFrom c v = RtOutcome.decodeError e
          ↔ vecFrom c v = RtOutcome.decodeError e)
    ∧ (boxFrom c v = RtOutcome.panicked
        ↔ vecFrom c v = RtOutcome.panicked) := by
  cases h : vecFrom c v <;> simp [boxFrom, h]

/-- Claim C6 (witness): the correspondence evaluated on the all-zero
eight-byte container — the boxed conversion panics exactly as the
growable-buffer conversion does. -/
theorem claim_C6_witness :
    boxFrom specCodec zeroAsset8 = RtOutcome.panicked :=
  (claim_C6_box_refines_vec specCodec 8 zeroAsset8).2.2.mpr rfl

/-- Claim C8: a relative path is resolved against the calling crate's
manifest directory while an absolute path is used as-is, and the
pipeline reads the file at exactly that resolved location — its result
depends on the file system only through the resolved path, and a
missing file there fails the build before anything else happens. -/
theorem claim_C8_path_resolution (m p : RPath) (env : BuildEnv)
    (c : Codec) (L : Int) :
    (p.absolute = true → resolvePath m p = p)
    ∧ (p.absolute = false →
        resolvePath m p = ⟨m.absolute, m.components ++ p.components⟩)
    ∧ (env.files (resolvePath env.manifestDir p) = none →
        include_zstd_inner env c p L
          = Except.error BuildError.fileUnreadable)
    ∧ (∀ env₂ : BuildEnv,
        env₂.manifestDir = env.manifestDir →
        env₂.crateName = env.crateName →
        env₂.files (resolvePath env.manifestDir p)
          = env.files (resolvePath env.manifestDir p) →
        include_zstd_inner env₂ c p L = include_zstd_inner env c p L) := by
  refine ⟨?_, ?_, ?_, ?_⟩
  · intro h
    simp [resolvePath, h]
  · intro h
    simp [resolvePath, RPath.join, h]
  · intro h
    simp only [include_zstd_inner, h]
  · intro env₂ h₁ h₂ h₃
    simp only [include_zstd_inner, h₁, h₂, h₃]

/-- Claim C8 (witness): resolution evaluated on concrete paths — the
relative path `a` joined under the absolute manifest directory `root`,
an absolute path `b` kept as-is, and a build whose file system has no
file at the resolved path failing with `fileUnreadable`. -/
theorem claim_C8_witness :
    resolvePath ⟨true, ["root"]⟩ ⟨false, ["a"]⟩ = ⟨true, ["root", "a"]⟩
    ∧ resolvePath ⟨true, ["root"]⟩ ⟨true, ["b"]⟩ = ⟨true, ["b"]⟩
    ∧ include_zstd_inner ⟨⟨true, []⟩, fun _ => none, some FoundCrate.itself⟩
        specCodec demoPath 3
        = Except.error BuildError.fileUnreadable :=
  ⟨(claim_C8_path_resolution ⟨true, ["root"]⟩ ⟨false, ["a"]⟩ demoEnv
      specCodec 3).2.1 rfl,
   (claim_C8_path_resolution ⟨true, ["root"]⟩ ⟨true, ["b"]⟩ demoEnv
      specCodec 3).1 rfl,
   (claim_C8_path_resolution ⟨true, []⟩ demoPath
      ⟨⟨true, []⟩, fun _ => none, some FoundCrate.itself⟩
      specCodec 3).2.2.1 rfl⟩

/-- Claim C9: every failure of the embedding pipeline — unreadable
file, level or codec failure during compression, unresolvable runtime
crate name — makes the build itself fail with a build error, and a
successful expansion exists only when all three steps succeeded, its
emitted value carrying only the compressed bytes, their length and the
crate identifier (no error information reaches the program). -/
theorem claim_C9_build_failures (env : BuildEnv) (c : Codec) (p : RPath)
    (L : Int) :
    (env.files (resolvePath env.manifestDir p) = none →
      include_zstd_inner env c p L = Except.error BuildError.fileUnreadable)
    ∧ (∀ B : List Nat,
        env.files (resolvePath env.manifestDir p) = some B →
        c.compress L B = none →
        include_zstd_inner env c p L
          = Except.error BuildError.codecRejected)
    ∧ (∀ B cb : List Nat,
        env.files (resolvePath env.manifestDir p) = some B →
        c.compress L B = some cb → env.crateName = none →
        include_zstd_inner env c p L
          = Except.error BuildError.crateUnresolved)
    ∧ (∀ em : Emitted, include_zstd_inner env c p L = Except.ok em →
        ∃ (B cb : List Nat) (fc : FoundCrate),
          env.files (resolvePath env.manifestDir p) = some B
          ∧ c.compress L B = some cb
          ∧ env.crateName = some fc
          ∧ em.asset.data = cb ∧ em.len = cb.length
          ∧ em.crate = crateIdent fc) := by
  refine ⟨?_, ?_, ?_, ?_⟩
  · intro h
    simp only [include_zstd_inner, h]
  · intro B hB hc
    simp only [include_zstd_inner, hB, hc]
  · intro B cb hB hc hcr
    simp only [include_zstd_inner, hB, hc, hcr]
  · intro em h
    unfold include_zstd_inner at h
    cases hB : env.files (resolvePath env.manifestDir p) with
    | none =>
      simp only [hB] at h
      exact Except.noConfusion h
    | some B =>
      simp only [hB] at h
      cases hc : c.compress L B with
      | none =>
        simp only [hc] at h
        exact Except.noConfusion h
      | some cb =>
        simp only [hc] at h
        cases hcr : env.crateName with
        | none =>
          simp only [hcr] at h
          exact Except.noConfusion h
        | some fc =>
          simp only [hcr] at h
          injection h with h
          subst h
          exact ⟨B, cb, fc, rfl, hc, rfl, rfl, rfl, rfl⟩

/-- Claim C9 (witness): the three failure modes evaluated concretely —
a file system with no files, the rejected level 99, and an
unresolvable crate name each abort the build with the corresponding
error. -/
theorem claim_C9_witness :
    include_zstd_inner ⟨⟨true, []⟩, fun _ => none, some FoundCrate.itself⟩
        specCodec demoPath 3
        = Except.error BuildError.fileUnreadable
    ∧ include_zstd_inner demoEnv specCodec demoPath 99
        = Except.error BuildError.codecRejected
    ∧ include_zstd_inner ⟨⟨true, []⟩, fun _ => some [1, 2, 3], none⟩
        specCodec demoPath 3
        = Except.error BuildError.crateUnresolved :=
  ⟨(claim_C9_build_failures ⟨⟨true, []⟩, fun _ => none,
      some FoundCrate.itself⟩ specCodec demoPath 3).1 rfl,
   (claim_C9_build_failures demoEnv specCodec demoPath 99).2.1
      [1, 2, 3] rfl rfl,
   (claim_C9_build_failures ⟨⟨true, []⟩, fun _ => some [1, 2, 3], none⟩
      specCodec demoPath 3).2.2.1 [1, 2, 3]
      [40, 181, 47, 253, 3, 1, 2, 3] rfl (by decide) rfl⟩
